import Mathlib

/-!
Verification of the AI travel-agent worker.

Shallow embedding of `src/index.ts` of the `ai-travel-agent-worker`
Cloudflare Worker. Pure data (Zod schemas, the response record, CORS
helpers) is translated directly; each external collaborator (the
language-model completion service, the geocoding/weather provider, the
image generator) is a black box whose response for this request is passed
in as an explicit parameter, so every definition is executable.

Numbers that are JavaScript `number`s are modelled as `Rat` (the schema
constraints at stake — star rating bounds, list lengths — are exact);
JSON serialisation of a travel plan is rendered with `Rat`'s canonical
numeral notation, an abstraction of JavaScript's decimal formatting that
does not affect any property proved here.
-/

namespace TravelAgent

/-! ## Data model: the Zod schemas (`flightPlanSchema`, `hotelPlanSchema`,
`travelPlanSchema`, `weatherDescriptionSchema`) -/

/-- Schema `flightPlanSchema`: airline, departure, arrival, layover strings and a
numeric price. Zod adds no constraints beyond the field types. -/
structure FlightPlan where
  airline : String
  departure : String
  arrival : String
  layover : String
  price : Rat
  deriving Repr, DecidableEq

/-- Schema `hotelPlanSchema`: the `stars` field is declared `z.number().min(4).max(5)`. -/
structure HotelPlan where
  name : String
  stars : Rat
  roomType : String
  price : Rat
  location : String
  deriving Repr, DecidableEq

/-- Schema `travelPlanSchema`: nested flight and hotel plans, recommendation texts,
total cost, conclusion, and `activitiesToDo` declared
`z.array(z.string()).length(3)`. -/
structure TravelPlan where
  flightPlan : FlightPlan
  flightRecommendation : String
  hotelPlan : HotelPlan
  hotelRecommendation : String
  totalEstimatedCost : Rat
  conclusion : String
  activitiesToDo : List String
  deriving Repr, DecidableEq

/-- Schema `weatherDescriptionSchema`: description bounded by `.max(150)`,
temperature and conditions strings. -/
structure WeatherDescription where
  description : String
  temperature : String
  conditions : String
  deriving Repr, DecidableEq

/-- Validation that `flightPlanSchema` performs beyond field types: none. -/
def flightPlanValid (_p : FlightPlan) : Bool :=
  true

/-- Validation that `hotelPlanSchema` performs beyond field types:
`stars` must satisfy `.min(4).max(5)`. -/
def hotelPlanValid (h : HotelPlan) : Bool :=
  decide (4 ≤ h.stars) && decide (h.stars ≤ 5)

/-- Validation that `travelPlanSchema` performs beyond field types: the
nested schemas' constraints plus `activitiesToDo` of length exactly 3. -/
def travelPlanValid (t : TravelPlan) : Bool :=
  flightPlanValid t.flightPlan && hotelPlanValid t.hotelPlan &&
    decide (t.activitiesToDo.length = 3)

/-- Validation that `weatherDescriptionSchema` performs beyond field types:
`description` at most 150 characters. -/
def weatherDescriptionValid (w : WeatherDescription) : Bool :=
  decide (w.description.length ≤ 150)

/-! ## Black-box model calls -/

/-- Outcome of one structured-output model call (`generateText` with
`Output.object`): the underlying completion either fails (network, rate
limit, provider error — the call rejects) or yields a structured value
that the SDK then validates against the declared Zod schema. -/
inductive ModelCall (α : Type) where
  | failure (msg : String)
  | output (a : α)
  deriving Repr, DecidableEq

/-- Behaviour of `generateText` with `Output.object`: a failed completion rejects with
the provider's error; a completion whose structured output violates the
schema rejects with the SDK's no-object-generated error; otherwise the
typed value is returned. -/
def runStructured {α : Type} (valid : α → Bool) (call : ModelCall α) :
    Except String α :=
  match call with
  | .failure msg => .error msg
  | .output a => if valid a then .ok a else .error "NoObjectGeneratedError"

/-! ## Capability: `generateLogisticsPlanBasedOnUserInputToolCall` -/

/-- Function `generateLogisticsPlanBasedOnUserInputToolCall`: one structured model
call constrained to `travelPlanSchema`; its result (or rejection) is
returned unchanged — there is no retry and no post-processing. -/
def generateLogisticsPlanBasedOnUserInputToolCall
    (call : ModelCall TravelPlan) : Except String TravelPlan :=
  runStructured travelPlanValid call

/-! ## Capability: `getCurrentWeather` -/

/-- One entry of the geocoding response array: `{lat, lon}` strings. -/
structure GeoEntry where
  lat : String
  lon : String
  deriving Repr, DecidableEq

/-- One entry of `weatherData.current.weather`. -/
structure WeatherCondition where
  description : String
  main : String
  deriving Repr, DecidableEq

/-- The fields of the one-call weather response that the function reads:
`current.temp`, `current.weather`, `timezone`. -/
structure WeatherData where
  temp : Rat
  weather : List WeatherCondition
  timezone : String
  deriving Repr, DecidableEq

/-- The mutable `finalWeatherDetails` record, initialised with four empty
strings. -/
structure FinalWeatherDetails where
  description : String
  temperature : String
  conditions : String
  imageUrl : String
  deriving Repr, DecidableEq

/-- Function `getCurrentWeather destination env apiKey baseURL`, with each external
response injected:
* `geoResult` — the geocoding fetch + JSON parse (`.error` = the fetch or
  parse threw);
* `weatherResult` — the one-call weather fetch + JSON parse;
* `descCall` — the structured model call for the weather description;
* `imageCall` — the DALL-E image call, `.ok` carrying
  `image?.data?.[0]?.url` (`none` when the optional chain is undefined).

Control flow of the source: an empty geocoding array makes
`geoData[0].lat` throw outside any try/catch, failing the whole
capability; an empty `current.weather` array makes the prompt
interpolation `weatherData.current.weather[0].description` throw inside
the first try, whose catch returns the still-empty record; a description
failure returns the record immediately (the image step is never reached);
an image failure returns the record with the description fields kept and
`imageUrl` still the empty string. -/
def getCurrentWeather
    (geoResult : Except String (List GeoEntry))
    (weatherResult : Except String WeatherData)
    (descCall : ModelCall WeatherDescription)
    (imageCall : Except String (Option String)) :
    Except String FinalWeatherDetails :=
  match geoResult with
  | .error e => .error e
  | .ok geoData =>
    match geoData with
    | [] => .error "TypeError: cannot read lat of undefined"
    | _ :: _ =>
      match weatherResult with
      | .error e => .error e
      | .ok weatherData =>
        let init : FinalWeatherDetails := ⟨"", "", "", ""⟩
        if weatherData.weather.isEmpty then
          -- prompt interpolation throws inside the try; caught, record returned
          .ok init
        else
          match runStructured weatherDescriptionValid descCall with
          | .error _ => .ok init
          | .ok out =>
            let withDesc : FinalWeatherDetails :=
              { init with
                  description := out.description
                  temperature := out.temperature
                  conditions := out.conditions }
            match imageCall with
            | .error _ => .ok withDesc
            | .ok url => .ok { withDesc with imageUrl := url.getD "" }

/-! ## JSON serialisation (`JSON.stringify` of a tool output) -/

/-- JSON string escaping for the characters that occur in the plans
serialised here (backslash and double quote; control characters are not
modelled). -/
def escapeJson (s : String) : String :=
  s.foldl
    (fun acc c =>
      if c = '\\' then acc ++ "\\\\"
      else if c = '"' then acc ++ "\\\"" else acc.push c) ""

/-- A JSON string literal. -/
def jsonStr (s : String) : String :=
  "\"" ++ escapeJson s ++ "\""

/-- A JSON numeral; `Rat`'s canonical notation stands in for JavaScript's
decimal formatting. -/
def jsonNum (q : Rat) : String :=
  toString q

/-- A JSON array of string literals. -/
def jsonStrArray (xs : List String) : String :=
  "[" ++ String.intercalate "," (xs.map jsonStr) ++ "]"

/-- Rendering of `JSON.stringify` of a `FlightPlan`, fields in declaration order. -/
def stringifyFlightPlan (p : FlightPlan) : String :=
  "\x7b\"airline\":" ++ jsonStr p.airline ++
    ",\"departure\":" ++ jsonStr p.departure ++
    ",\"arrival\":" ++ jsonStr p.arrival ++
    ",\"layover\":" ++ jsonStr p.layover ++
    ",\"price\":" ++ jsonNum p.price ++ "\x7d"

/-- Rendering of `JSON.stringify` of a `HotelPlan`, fields in declaration order. -/
def stringifyHotelPlan (h : HotelPlan) : String :=
  "\x7b\"name\":" ++ jsonStr h.name ++
    ",\"stars\":" ++ jsonNum h.stars ++
    ",\"roomType\":" ++ jsonStr h.roomType ++
    ",\"price\":" ++ jsonNum h.price ++
    ",\"location\":" ++ jsonStr h.location ++ "\x7d"

/-- Rendering of `JSON.stringify` of a `TravelPlan`, fields in declaration order: this
is the string assigned to `finalResponse.logisticsPlanRecommendation`. -/
def stringifyTravelPlan (t : TravelPlan) : String :=
  "\x7b\"flightPlan\":" ++ stringifyFlightPlan t.flightPlan ++
    ",\"flightRecommendation\":" ++ jsonStr t.flightRecommendation ++
    ",\"hotelPlan\":" ++ stringifyHotelPlan t.hotelPlan ++
    ",\"hotelRecommendation\":" ++ jsonStr t.hotelRecommendation ++
    ",\"totalEstimatedCost\":" ++ jsonNum t.totalEstimatedCost ++
    ",\"conclusion\":" ++ jsonStr t.conclusion ++
    ",\"activitiesToDo\":" ++ jsonStrArray t.activitiesToDo ++ "\x7d"

/-! ## The dispatch phase (`generateText` with the two tools) -/

/-- One tool invocation the model requests during the dispatch call,
bundled with the responses its external collaborators would give:
* `planLogistics` carries the inner structured model call of
  `generateLogisticsPlanBasedOnUserInputToolCall`;
* `currentWeather` carries the geocode, weather, description and image
  responses consumed by `getCurrentWeather`. -/
inductive ToolInvocation where
  | planLogistics (inner : ModelCall TravelPlan)
  | currentWeather (geoResult : Except String (List GeoEntry))
      (weatherResult : Except String WeatherData)
      (descCall : ModelCall WeatherDescription)
      (imageCall : Except String (Option String))

/-- The typed output of a successful tool execution, as it appears in
`result.toolResults` (the `toolName` discriminates the two cases in the
source's aggregation loop). -/
inductive ToolOutput where
  | logistics (plan : TravelPlan)
  | weather (details : FinalWeatherDetails)
  deriving Repr, DecidableEq

/-- The `toolName` string attached to a tool result. -/
def ToolOutput.toolName : ToolOutput → String
  | .logistics _ => "generateLogisticsPlan"
  | .weather _ => "getCurrentWeather"

/-- Execute one requested tool (`execute` of the corresponding tool
definition): a throw inside the tool body surfaces as `.error`. -/
def executeTool : ToolInvocation → Except String ToolOutput
  | .planLogistics inner =>
      (generateLogisticsPlanBasedOnUserInputToolCall inner).map .logistics
  | .currentWeather geoResult weatherResult descCall imageCall =>
      (getCurrentWeather geoResult weatherResult descCall imageCall).map .weather

/-- The tool-execution half of `generateText` (AI SDK v5 semantics, which
this source uses — `inputSchema`, `stepCountIs`): an error thrown by a
tool's `execute` is captured as a tool-error content part and fed back to
the model; it does not reject `generateText`, and only successful
executions appear in `result.toolResults`. -/
def runTools (invs : List ToolInvocation) : List ToolOutput :=
  invs.filterMap (fun inv => (executeTool inv).toOption)

/-- The model's black-box behaviour for the one dispatch round of this
request: either the top-level `generateText` call itself rejects
(provider/network/gateway error), or the model requests a list of tool
invocations — possibly empty, when it answers terminally in text without
calling any capability. -/
inductive ModelDecision where
  | callFailed (msg : String)
  | steps (invs : List ToolInvocation)

/-- The names of the capabilities the dispatch round executes. -/
def ToolInvocation.name : ToolInvocation → String
  | .planLogistics _ => "generateLogisticsPlan"
  | .currentWeather _ _ _ _ => "getCurrentWeather"

/-- The capability executions a decision triggers (empty when the
top-level call fails before any tool runs). -/
def ModelDecision.invocationNames : ModelDecision → List String
  | .callFailed _ => []
  | .steps invs => invs.map ToolInvocation.name

/-! ## Response aggregation -/

/-- The `finalResponse` record: all four fields start as `null`. -/
structure FinalResponse where
  logisticsPlanRecommendation : Option String
  currentWeather : Option String
  currentWeatherImageUrl : Option String
  failureReason : Option String
  deriving Repr, DecidableEq

/-- The record `finalResponse` as initialised: every field `null`. -/
def emptyFinalResponse : FinalResponse :=
  ⟨none, none, none, none⟩

/-- One iteration of the `for (const toolResult of result.toolResults)`
loop: a logistics result overwrites `logisticsPlanRecommendation` with
`JSON.stringify(toolResult.output)`; a weather result overwrites
`currentWeather` and `currentWeatherImageUrl` with the record's
`description` and `imageUrl`. -/
def applyToolResult (acc : FinalResponse) (out : ToolOutput) : FinalResponse :=
  match out with
  | .logistics plan =>
      { acc with logisticsPlanRecommendation := some (stringifyTravelPlan plan) }
  | .weather details =>
      { acc with
          currentWeather := some details.description
          currentWeatherImageUrl := some details.imageUrl }

/-- The whole aggregation loop over `result.toolResults`. -/
def aggregateToolResults (results : List ToolOutput) : FinalResponse :=
  results.foldl applyToolResult emptyFinalResponse

/-- The `try { ... generateText ... for ... } catch` block: a rejected
dispatch call sets `failureReason` to the error message prefixed with
`Error: ` and leaves the other fields `null`; otherwise the tool results
are aggregated. -/
def runDispatchPhase (decision : ModelDecision) : FinalResponse :=
  match decision with
  | .callFailed msg =>
      { emptyFinalResponse with failureReason := some ("Error: " ++ msg) }
  | .steps invs => aggregateToolResults (runTools invs)

/-! ## HTTP boundary (`fetch` handler, CORS helpers) -/

/-- The request body as the handler reads it: `request.json()` is merely
cast, never validated, so every field may be absent. -/
structure RequestBody where
  destination : Option String
  flyingFrom : Option String
  fromDate : Option String
  toDate : Option String
  budget : Option Rat
  travelers : Option Rat
  tripType : Option String
  deriving Repr, DecidableEq

/-- A request body with every field absent. -/
def emptyRequestBody : RequestBody :=
  ⟨none, none, none, none, none, none, none⟩

/-- The parts of the incoming request the handler reads: the `origin`
header (`none` when absent), the method, and the parsed JSON body. -/
structure HttpRequest where
  origin : Option String
  method : String
  body : RequestBody

/-- Function `getAllowedOrigins`: the `ALLOWED_ORIGINS` environment variable split
on commas and trimmed; when unset (or the empty string — both falsy) a
single local-development origin. -/
def getAllowedOrigins (allowedOriginsVar : String) : List String :=
  if allowedOriginsVar = "" then ["http://localhost:5173"]
  else (allowedOriginsVar.splitOn ",").map String.trim

/-- Function `isOriginAllowed`: a missing or empty origin (both falsy) is refused;
otherwise membership in the allow-list decides. -/
def isOriginAllowed (origin : Option String) (allowedOrigins : List String) :
    Bool :=
  match origin with
  | none => false
  | some o => if o = "" then false else allowedOrigins.contains o

/-- The header record `corsHeaders` builds. -/
structure CorsHeaders where
  allowOrigin : String
  allowMethods : String
  allowHeaders : String
  allowCredentials : String
  contentType : String
  deriving Repr, DecidableEq

/-- Function `corsHeaders`: echoes the origin when allowed, empty string otherwise. -/
def corsHeaders (origin : Option String) (allowedOriginsVar : String) :
    CorsHeaders :=
  let allowedOrigins := getAllowedOrigins allowedOriginsVar
  let isAllowed := isOriginAllowed origin allowedOrigins
  { allowOrigin := if isAllowed then origin.getD "" else ""
    allowMethods := "POST, OPTIONS"
    allowHeaders := "Content-Type, Authorization"
    allowCredentials := "true"
    contentType := "application/json" }

/-- The response bodies the handler can produce: `null` (the 204), an
`\x7b"error": ...\x7d` object, or `\x7b"done": true, "response": ...\x7d`. -/
inductive ResponseBody where
  | empty
  | errorMessage (error : String)
  | final (response : FinalResponse)
  deriving Repr, DecidableEq

/-- What one run of the `fetch` handler produces, instrumented with which
external work it performed: `modelCalled` is true exactly when the
dispatch `generateText` call was issued, and `capabilitiesInvoked` lists
the tool executions of the dispatch round. -/
structure HandlerOutcome where
  status : Nat
  body : ResponseBody
  headers : CorsHeaders
  modelCalled : Bool
  capabilitiesInvoked : List String

/-- The `fetch` handler: OPTIONS preflight first (204, empty body), then
origin validation (403), then method validation (405), then the dispatch
phase and the 200 response carrying `finalResponse`. `decision` is the
black-box behaviour of the model for this request's dispatch call. -/
def fetchHandler (allowedOriginsVar : String) (req : HttpRequest)
    (decision : ModelDecision) : HandlerOutcome :=
  let allowedOrigins := getAllowedOrigins allowedOriginsVar
  let allowedHeaders := corsHeaders req.origin allowedOriginsVar
  if req.method = "OPTIONS" then
    { status := 204, body := .empty, headers := allowedHeaders
      modelCalled := false, capabilitiesInvoked := [] }
  else if isOriginAllowed req.origin allowedOrigins = false then
    { status := 403, body := .errorMessage "Origin not allowed"
      headers := allowedHeaders, modelCalled := false
      capabilitiesInvoked := [] }
  else if req.method ≠ "POST" then
    { status := 405
      body := .errorMessage ("Method " ++ req.method ++ " not allowed")
      headers := allowedHeaders, modelCalled := false
      capabilitiesInvoked := [] }
  else
    { status := 200, body := .final (runDispatchPhase decision)
      headers := allowedHeaders, modelCalled := true
      capabilitiesInvoked := decision.invocationNames }

/-! ## Concrete sample data -/

/-- A schema-valid travel plan used as concrete input in witnesses. -/
def samplePlan : TravelPlan :=
  { flightPlan :=
      { airline := "Delta Airlines", departure := "2025-06-01 08:00"
        arrival := "2025-06-01 20:00", layover := "Direct flight"
        price := 1200 }
    flightRecommendation :=
      "The best option for you is with Delta Airlines priced at $1200"
    hotelPlan :=
      { name := "Premiere Inn", stars := 4, roomType := "Double room"
        price := 800, location := "central Paris" }
    hotelRecommendation :=
      "We recommend you stay at the 4 star Premiere Inn hotel in central Paris"
    totalEstimatedCost := 2000
    conclusion := "The plan fits within your budget"
    activitiesToDo :=
      ["Visit the Louvre", "Climb the Eiffel Tower", "Cruise the Seine"] }

/-- A second schema-valid travel plan, distinct from `samplePlan`. -/
def samplePlanAlt : TravelPlan :=
  { samplePlan with
      hotelPlan := { samplePlan.hotelPlan with stars := 5, price := 950 }
      totalEstimatedCost := 2150 }

/-- A travel plan with only one activity: schema-invalid. -/
def shortActivitiesPlan : TravelPlan :=
  { samplePlan with activitiesToDo := ["Visit the Louvre"] }

/-- A geocoding hit for the sample destination. -/
def sampleGeoEntry : GeoEntry :=
  ⟨"48.8589", "2.3200"⟩

/-- A weather payload with one current condition. -/
def sampleWeatherData : WeatherData :=
  ⟨18, [⟨"scattered clouds", "Clouds"⟩], "Europe/Paris"⟩

/-- A schema-valid weather description output. -/
def sampleWeatherDescription : WeatherDescription :=
  ⟨"Paris, France enjoys mild air under scattered clouds today.", "18°C",
    "scattered clouds"⟩

/-- A request from the default local-development origin with an empty body. -/
def sampleAllowedReq : HttpRequest :=
  ⟨some "http://localhost:5173", "POST", emptyRequestBody⟩

/-- Projection used to collect the logistics tool outputs of a dispatch
round. -/
def ToolOutput.logisticsPlan? : ToolOutput → Option TravelPlan
  | .logistics plan => some plan
  | .weather _ => none

/-- The rational 9/2 = 4.5, given in lowest terms so that comparisons on it
evaluate by kernel reduction. -/
def nineHalves : Rat :=
  ⟨9, 2, by decide, by decide⟩

/-- A hotel plan whose star rating is the fractional value 4.5. -/
def fractionalStarsHotel : HotelPlan :=
  ⟨"Hotel Demi", nineHalves, "Suite", 900, "Riverside"⟩

/-! ## Helper lemmas -/

/-- The aggregation loop never writes `failureReason`. -/
theorem foldl_applyToolResult_failureReason (results : List ToolOutput) :
    ∀ acc : FinalResponse,
      (results.foldl applyToolResult acc).failureReason = acc.failureReason := by
  induction results with
  | nil => intro acc; rfl
  | cons out rest ih =>
    intro acc
    rw [List.foldl_cons, ih]
    cases out <;> rfl

/-- In the aggregation loop, `logisticsPlanRecommendation` ends up as the
stringification of the last logistics output, or keeps the accumulator's
value when the round produced none. -/
theorem foldl_applyToolResult_logistics (results : List ToolOutput) :
    ∀ acc : FinalResponse,
      (results.foldl applyToolResult acc).logisticsPlanRecommendation
        = (((results.filterMap ToolOutput.logisticsPlan?).getLast?).map
            (fun plan => some (stringifyTravelPlan plan))).getD
            acc.logisticsPlanRecommendation := by
  induction results with
  | nil => intro acc; rfl
  | cons out rest ih =>
    intro acc
    rw [List.foldl_cons, ih]
    cases out with
    | weather details =>
      simp [ToolOutput.logisticsPlan?, applyToolResult]
    | logistics plan =>
      cases hrest : rest.filterMap ToolOutput.logisticsPlan? with
      | nil => simp [ToolOutput.logisticsPlan?, applyToolResult, hrest]
      | cons q l =>
        simp [ToolOutput.logisticsPlan?, applyToolResult, hrest,
          List.getLast?_cons_cons]
        cases hql : (q :: l).getLast? with
        | none => simp [List.getLast?] at hql
        | some r => simp

/-! ## Claim C1 -/

/-- C1 (counterexample): a valid request enters the dispatch phase and the
model answers terminally without invoking any capability; the handler then
returns a response in which `logisticsPlanRecommendation`, `currentWeather`
and `currentWeatherImageUrl` are all null while `failureReason` is also
null — refuting the claim that this never happens. -/
theorem terminal_answer_all_null_cx :
    (fetchHandler "" sampleAllowedReq (.steps [])).modelCalled = true ∧
    (fetchHandler "" sampleAllowedReq (.steps [])).status = 200 ∧
    (fetchHandler "" sampleAllowedReq (.steps [])).body
      = .final ⟨none, none, none, none⟩ :=
  ⟨rfl, rfl, rfl⟩

/-- C1 (amended): for every request that enters the dispatch phase the
handler terminates with a 200 response carrying the aggregated
`finalResponse`, and `failureReason` is non-null exactly when the dispatch
model call itself threw; in particular, when the model produces a terminal
answer without invoking any capability, all four fields — `failureReason`
included — are null. -/
theorem dispatch_failure_reason_iff_call_failed
    (allowedOriginsVar : String) (req : HttpRequest) (decision : ModelDecision)
    (hm : req.method = "POST")
    (ho : isOriginAllowed req.origin (getAllowedOrigins allowedOriginsVar) = true) :
    (fetchHandler allowedOriginsVar req decision).status = 200 ∧
    (fetchHandler allowedOriginsVar req decision).body
      = .final (runDispatchPhase decision) ∧
    ((runDispatchPhase decision).failureReason ≠ none
      ↔ ∃ msg, decision = ModelDecision.callFailed msg) := by
  refine ⟨by simp [fetchHandler, hm, ho], by simp [fetchHandler, hm, ho], ?_⟩
  cases decision with
  | callFailed msg => simp [runDispatchPhase]
  | steps invs =>
    simp [runDispatchPhase, aggregateToolResults,
      foldl_applyToolResult_failureReason, emptyFinalResponse]

/-- Witness for the amended C1 at a concrete failed dispatch call. -/
theorem dispatch_failure_reason_iff_call_failed_witness :
    (fetchHandler "" sampleAllowedReq (.callFailed "network down")).status = 200 ∧
    (fetchHandler "" sampleAllowedReq (.callFailed "network down")).body
      = .final (runDispatchPhase (.callFailed "network down")) ∧
    ((runDispatchPhase (ModelDecision.callFailed "network down")).failureReason ≠ none
      ↔ ∃ msg, ModelDecision.callFailed "network down"
          = ModelDecision.callFailed msg) :=
  dispatch_failure_reason_iff_call_failed "" sampleAllowedReq
    (.callFailed "network down") rfl rfl

/-! ## Claim C2 -/

/-- C2 (counterexample): a POST from an allowed origin whose body is missing
all seven required fields still enters the dispatch loop — the model is
called and a 200 is returned — refuting the claim that such a request fails
fast before the loop. -/
theorem missing_fields_enter_loop_cx :
    (fetchHandler "" ⟨some "http://localhost:5173", "POST", emptyRequestBody⟩
        (.steps [])).modelCalled = true ∧
    (fetchHandler "" ⟨some "http://localhost:5173", "POST", emptyRequestBody⟩
        (.steps [])).status = 200 :=
  ⟨rfl, rfl⟩

/-- C2 (amended): the handler performs no presence validation of the request
body — for every body, including one with all seven fields absent, a POST
from an allowed origin reaches the dispatch phase and the model is called. -/
theorem no_body_validation_before_dispatch
    (allowedOriginsVar : String) (origin : Option String) (body : RequestBody)
    (decision : ModelDecision)
    (ho : isOriginAllowed origin (getAllowedOrigins allowedOriginsVar) = true) :
    (fetchHandler allowedOriginsVar ⟨origin, "POST", body⟩ decision).modelCalled
      = true ∧
    (fetchHandler allowedOriginsVar ⟨origin, "POST", body⟩ decision).status
      = 200 := by
  constructor <;> simp [fetchHandler, ho]

/-- Witness for the amended C2 at a concrete all-absent body. -/
theorem no_body_validation_before_dispatch_witness :
    (fetchHandler "" ⟨some "http://localhost:5173", "POST", emptyRequestBody⟩
        (.steps [])).modelCalled = true ∧
    (fetchHandler "" ⟨some "http://localhost:5173", "POST", emptyRequestBody⟩
        (.steps [])).status = 200 :=
  no_body_validation_before_dispatch "" (some "http://localhost:5173")
    emptyRequestBody (.steps []) rfl

/-! ## Claim C5 -/

/-- C5 (counterexample): the validator accepts a hotel plan whose star
rating is 4.5, which is neither 4 nor 5 — refuting the claim that ratings
outside the two-element set are rejected. -/
theorem fractional_star_rating_accepted_cx :
    hotelPlanValid fractionalStarsHotel = true ∧
    fractionalStarsHotel.stars ≠ 4 ∧ fractionalStarsHotel.stars ≠ 5 :=
  ⟨by decide, by decide, by decide⟩

/-- C5 (amended): the validator accepts exactly the star ratings in the
closed interval from 4 to 5 — ratings outside the interval are rejected,
but fractional ratings inside it, such as 4.5, are accepted. -/
theorem hotel_stars_interval (h : HotelPlan) :
    hotelPlanValid h = true ↔ 4 ≤ h.stars ∧ h.stars ≤ 5 := by
  simp [hotelPlanValid]

/-- Witness for the amended C5 at the concrete fractional-star hotel. -/
theorem hotel_stars_interval_witness :
    hotelPlanValid fractionalStarsHotel = true
      ↔ 4 ≤ fractionalStarsHotel.stars ∧ fractionalStarsHotel.stars ≤ 5 :=
  hotel_stars_interval fractionalStarsHotel

/-! ## Claim C6 -/

/-- C6: every travel plan returned by a successful logistics capability call
has exactly 3 activities, and a model output with any other number of
activities makes the capability fail with the SDK's schema error instead of
being truncated or padded into a success. -/
theorem logistics_activities_exactly_three
    (call : ModelCall TravelPlan) (plan raw : TravelPlan)
    (hok : generateLogisticsPlanBasedOnUserInputToolCall call = .ok plan)
    (hbad : raw.activitiesToDo.length ≠ 3) :
    plan.activitiesToDo.length = 3 ∧
    generateLogisticsPlanBasedOnUserInputToolCall (.output raw)
      = .error "NoObjectGeneratedError" := by
  constructor
  · cases call with
    | failure msg =>
      simp [generateLogisticsPlanBasedOnUserInputToolCall, runStructured] at hok
    | output a =>
      by_cases hv : travelPlanValid a = true
      · have ha : a = plan := by
          simpa [generateLogisticsPlanBasedOnUserInputToolCall, runStructured,
            hv] using hok
        subst ha
        rw [travelPlanValid, Bool.and_eq_true] at hv
        exact of_decide_eq_true hv.2
      · simp [generateLogisticsPlanBasedOnUserInputToolCall, runStructured,
          hv] at hok
  · have hv : travelPlanValid raw = false := by
      simp [travelPlanValid, hbad]
    simp [generateLogisticsPlanBasedOnUserInputToolCall, runStructured, hv]

/-- Witness for C6 at a concrete valid plan and a concrete one-activity
output. -/
theorem logistics_activities_exactly_three_witness :
    samplePlan.activitiesToDo.length = 3 ∧
    generateLogisticsPlanBasedOnUserInputToolCall (.output shortActivitiesPlan)
      = .error "NoObjectGeneratedError" :=
  logistics_activities_exactly_three (.output samplePlan) samplePlan
    shortActivitiesPlan rfl (by decide)

/-! ## Claim C3 -/

/-- C3 (counterexample): with geocode and conditions fetched, a failing
description call combined with an image call that would return a URL yields
the all-empty record — the URL the image step would produce is discarded
(second conjunct: the same image call does deliver its URL when the
description succeeds), refuting independence in the description-fails
direction. -/
theorem description_failure_discards_image_cx :
    getCurrentWeather (.ok [sampleGeoEntry]) (.ok sampleWeatherData)
        (.failure "model error") (.ok (some "https://img.example/w.png"))
      = .ok ⟨"", "", "", ""⟩ ∧
    getCurrentWeather (.ok [sampleGeoEntry]) (.ok sampleWeatherData)
        (.output sampleWeatherDescription) (.ok (some "https://img.example/w.png"))
      = .ok ⟨sampleWeatherDescription.description,
          sampleWeatherDescription.temperature,
          sampleWeatherDescription.conditions, "https://img.example/w.png"⟩ :=
  ⟨rfl, rfl⟩

/-- C3 (amended): after geocode and conditions succeed, an image-generation
failure keeps a successful description with an empty `imageUrl`; but a
description failure returns the all-empty record at once — the image step
is short-circuited, and its result, whatever it would have been, never
reaches the caller. -/
theorem weather_failure_isolation
    (g : GeoEntry) (gs : List GeoEntry) (w : WeatherData)
    (hw : w.weather ≠ [])
    (d : WeatherDescription) (hd : weatherDescriptionValid d = true)
    (e msg : String) (imageCall : Except String (Option String)) :
    getCurrentWeather (.ok (g :: gs)) (.ok w) (.output d) (.error e)
      = .ok ⟨d.description, d.temperature, d.conditions, ""⟩ ∧
    getCurrentWeather (.ok (g :: gs)) (.ok w) (.failure msg) imageCall
      = .ok ⟨"", "", "", ""⟩ := by
  have hw' : w.weather.isEmpty = false := by
    cases hwl : w.weather with
    | nil => exact absurd hwl hw
    | cons a l => rfl
  constructor <;> simp [getCurrentWeather, runStructured, hw', hd]

/-- Witness for the amended C3 at concrete weather inputs. -/
theorem weather_failure_isolation_witness :
    getCurrentWeather (.ok [sampleGeoEntry]) (.ok sampleWeatherData)
        (.output sampleWeatherDescription) (.error "image service down")
      = .ok ⟨sampleWeatherDescription.description,
          sampleWeatherDescription.temperature,
          sampleWeatherDescription.conditions, ""⟩ ∧
    getCurrentWeather (.ok [sampleGeoEntry]) (.ok sampleWeatherData)
        (.failure "model refused") (.error "image service down")
      = .ok ⟨"", "", "", ""⟩ :=
  weather_failure_isolation sampleGeoEntry [] sampleWeatherData (by decide)
    sampleWeatherDescription (by decide) "image service down" "model refused"
    (.error "image service down")

/-! ## Claim C4 -/

/-- C4: when the geocoding provider returns zero matches, the weather
capability as a whole fails (its execution is an error, isolated to that
tool), the aggregated response has `currentWeather` and
`currentWeatherImageUrl` both null and `failureReason` null, while
`logisticsPlanRecommendation` is still populated whenever the logistics
capability succeeded independently in the same round. -/
theorem geocode_zero_matches_isolated_failure
    (inner : ModelCall TravelPlan) (plan : TravelPlan)
    (hinner : inner = .output plan) (hvalid : travelPlanValid plan = true)
    (weatherResult : Except String WeatherData)
    (descCall : ModelCall WeatherDescription)
    (imageCall : Except String (Option String)) :
    (∃ msg, executeTool
        (.currentWeather (.ok []) weatherResult descCall imageCall)
      = .error msg) ∧
    runDispatchPhase (.steps [.planLogistics inner,
        .currentWeather (.ok []) weatherResult descCall imageCall])
      = { logisticsPlanRecommendation := some (stringifyTravelPlan plan)
          currentWeather := none
          currentWeatherImageUrl := none
          failureReason := none } := by
  subst hinner
  refine ⟨⟨"TypeError: cannot read lat of undefined", rfl⟩, ?_⟩
  simp [runDispatchPhase, runTools, executeTool,
    generateLogisticsPlanBasedOnUserInputToolCall, runStructured, hvalid,
    getCurrentWeather, aggregateToolResults, applyToolResult,
    emptyFinalResponse, List.filterMap_cons, Except.map, Except.toOption]

/-- Witness for C4 at a concrete valid logistics plan and arbitrary fixed
weather-side inputs. -/
theorem geocode_zero_matches_isolated_failure_witness :
    (∃ msg, executeTool
        (.currentWeather (.ok []) (.ok sampleWeatherData)
          (.output sampleWeatherDescription) (.ok none))
      = .error msg) ∧
    runDispatchPhase (.steps [.planLogistics (.output samplePlan),
        .currentWeather (.ok []) (.ok sampleWeatherData)
          (.output sampleWeatherDescription) (.ok none)])
      = { logisticsPlanRecommendation := some (stringifyTravelPlan samplePlan)
          currentWeather := none
          currentWeatherImageUrl := none
          failureReason := none } :=
  geocode_zero_matches_isolated_failure (.output samplePlan) samplePlan rfl
    (by decide) (.ok sampleWeatherData) (.output sampleWeatherDescription)
    (.ok none)

/-! ## Claim C7 -/

/-- C7 (counterexample): both capabilities error during the dispatch round
(the weather geocode array is empty; the logistics model call is rate
limited), yet the response is status 200 with `failureReason` still null —
a capability-level error does not populate `failureReason` as the claim
requires. -/
theorem capability_error_null_failure_reason_cx :
    (fetchHandler "" sampleAllowedReq
        (.steps [.currentWeather (.ok []) (.ok sampleWeatherData)
            (.output sampleWeatherDescription) (.ok none),
          .planLogistics (.failure "rate limited")])).status = 200 ∧
    (fetchHandler "" sampleAllowedReq
        (.steps [.currentWeather (.ok []) (.ok sampleWeatherData)
            (.output sampleWeatherDescription) (.ok none),
          .planLogistics (.failure "rate limited")])).body
      = .final ⟨none, none, none, none⟩ :=
  ⟨rfl, rfl⟩

/-- C7 (amended): past the boundary checks the handler always answers with
status 200 — no capability-level error ever produces a 5xx — and
`failureReason` is populated (with the prefixed error message) exactly when
the top-level model call throws, while tool-level errors are absorbed at
the tool boundary and leave `failureReason` null. -/
theorem post_boundary_always_200
    (allowedOriginsVar : String) (req : HttpRequest) (decision : ModelDecision)
    (hm : req.method = "POST")
    (ho : isOriginAllowed req.origin (getAllowedOrigins allowedOriginsVar) = true) :
    (fetchHandler allowedOriginsVar req decision).status = 200 ∧
    (∀ msg, decision = ModelDecision.callFailed msg →
      (fetchHandler allowedOriginsVar req decision).body
        = .final { emptyFinalResponse with
            failureReason := some ("Error: " ++ msg) }) ∧
    (∀ invs, decision = ModelDecision.steps invs →
      (fetchHandler allowedOriginsVar req decision).body
        = .final (aggregateToolResults (runTools invs)) ∧
      (aggregateToolResults (runTools invs)).failureReason = none) := by
  refine ⟨by simp [fetchHandler, hm, ho], ?_, ?_⟩
  · rintro msg rfl
    simp [fetchHandler, hm, ho, runDispatchPhase]
  · rintro invs rfl
    refine ⟨by simp [fetchHandler, hm, ho, runDispatchPhase], ?_⟩
    simp [aggregateToolResults, foldl_applyToolResult_failureReason,
      emptyFinalResponse]

/-- Witness for the amended C7 at a concrete failed top-level model call. -/
theorem post_boundary_always_200_witness :
    (fetchHandler "" sampleAllowedReq (.callFailed "gateway timeout")).status
      = 200 ∧
    (∀ msg, ModelDecision.callFailed "gateway timeout"
        = ModelDecision.callFailed msg →
      (fetchHandler "" sampleAllowedReq (.callFailed "gateway timeout")).body
        = .final { emptyFinalResponse with
            failureReason := some ("Error: " ++ msg) }) ∧
    (∀ invs, ModelDecision.callFailed "gateway timeout"
        = ModelDecision.steps invs →
      (fetchHandler "" sampleAllowedReq (.callFailed "gateway timeout")).body
        = .final (aggregateToolResults (runTools invs)) ∧
      (aggregateToolResults (runTools invs)).failureReason = none) :=
  post_boundary_always_200 "" sampleAllowedReq (.callFailed "gateway timeout")
    rfl rfl

/-! ## Claim C8 -/

/-- C8: a non-OPTIONS request whose origin header is absent or not in the
allow-list is answered 403 with the error body, the model is never called,
and no capability is invoked at all. -/
theorem disallowed_origin_403_no_capability
    (allowedOriginsVar : String) (req : HttpRequest) (decision : ModelDecision)
    (hm : req.method ≠ "OPTIONS")
    (ho : isOriginAllowed req.origin (getAllowedOrigins allowedOriginsVar) = false) :
    (fetchHandler allowedOriginsVar req decision).status = 403 ∧
    (fetchHandler allowedOriginsVar req decision).body
      = .errorMessage "Origin not allowed" ∧
    (fetchHandler allowedOriginsVar req decision).modelCalled = false ∧
    (fetchHandler allowedOriginsVar req decision).capabilitiesInvoked = [] := by
  refine ⟨?_, ?_, ?_, ?_⟩ <;> simp [fetchHandler, hm, ho]

/-- Witness for C8 at a concrete request with no origin header, a dispatch
decision that would have invoked a capability, and a configured allow-list. -/
theorem disallowed_origin_403_no_capability_witness :
    (fetchHandler "https://app.example.com"
        ⟨none, "POST", emptyRequestBody⟩
        (.steps [.planLogistics (.output samplePlan)])).status = 403 ∧
    (fetchHandler "https://app.example.com"
        ⟨none, "POST", emptyRequestBody⟩
        (.steps [.planLogistics (.output samplePlan)])).body
      = .errorMessage "Origin not allowed" ∧
    (fetchHandler "https://app.example.com"
        ⟨none, "POST", emptyRequestBody⟩
        (.steps [.planLogistics (.output samplePlan)])).modelCalled = false ∧
    (fetchHandler "https://app.example.com"
        ⟨none, "POST", emptyRequestBody⟩
        (.steps [.planLogistics (.output samplePlan)])).capabilitiesInvoked
      = [] :=
  disallowed_origin_403_no_capability "https://app.example.com"
    ⟨none, "POST", emptyRequestBody⟩
    (.steps [.planLogistics (.output samplePlan)]) (by decide) rfl

/-! ## Claim C9 -/

/-- C9: every OPTIONS request is answered 204 with an empty body and the
CORS headers, the model is never called and no capability or data-provider
call is made, regardless of the request's origin or body. -/
theorem options_preflight_204
    (allowedOriginsVar : String) (req : HttpRequest) (decision : ModelDecision)
    (hm : req.method = "OPTIONS") :
    (fetchHandler allowedOriginsVar req decision).status = 204 ∧
    (fetchHandler allowedOriginsVar req decision).body = .empty ∧
    (fetchHandler allowedOriginsVar req decision).headers
      = corsHeaders req.origin allowedOriginsVar ∧
    (fetchHandler allowedOriginsVar req decision).modelCalled = false ∧
    (fetchHandler allowedOriginsVar req decision).capabilitiesInvoked = [] := by
  refine ⟨?_, ?_, ?_, ?_, ?_⟩ <;> simp [fetchHandler, hm]

/-- Witness for C9 at a concrete OPTIONS request from a non-allow-listed
origin whose dispatch decision would have invoked a capability. -/
theorem options_preflight_204_witness :
    (fetchHandler "https://app.example.com"
        ⟨some "https://evil.example", "OPTIONS", emptyRequestBody⟩
        (.steps [.planLogistics (.output samplePlan)])).status = 204 ∧
    (fetchHandler "https://app.example.com"
        ⟨some "https://evil.example", "OPTIONS", emptyRequestBody⟩
        (.steps [.planLogistics (.output samplePlan)])).body = .empty ∧
    (fetchHandler "https://app.example.com"
        ⟨some "https://evil.example", "OPTIONS", emptyRequestBody⟩
        (.steps [.planLogistics (.output samplePlan)])).headers
      = corsHeaders (some "https://evil.example") "https://app.example.com" ∧
    (fetchHandler "https://app.example.com"
        ⟨some "https://evil.example", "OPTIONS", emptyRequestBody⟩
        (.steps [.planLogistics (.output samplePlan)])).modelCalled = false ∧
    (fetchHandler "https://app.example.com"
        ⟨some "https://evil.example", "OPTIONS", emptyRequestBody⟩
        (.steps [.planLogistics (.output samplePlan)])).capabilitiesInvoked
      = [] :=
  options_preflight_204 "https://app.example.com"
    ⟨some "https://evil.example", "OPTIONS", emptyRequestBody⟩
    (.steps [.planLogistics (.output samplePlan)]) rfl

/-! ## Claim C10 -/

/-- C10: in the aggregated response, `logisticsPlanRecommendation` is the
`JSON.stringify` rendering — a string, not a nested object — of the last
logistics tool output of the round in iteration order, and null when the
round produced none. -/
theorem logistics_recommendation_stringified_last (results : List ToolOutput) :
    (aggregateToolResults results).logisticsPlanRecommendation
      = ((results.filterMap ToolOutput.logisticsPlan?).getLast?).map
          stringifyTravelPlan := by
  rw [aggregateToolResults, foldl_applyToolResult_logistics]
  cases (results.filterMap ToolOutput.logisticsPlan?).getLast? <;> rfl

/-- Witness for C10 at a concrete round where the logistics tool produced
two results: the later one is the one retained. -/
theorem logistics_recommendation_stringified_last_witness :
    (aggregateToolResults
        [ToolOutput.logistics samplePlan,
          ToolOutput.weather ⟨"cloudy", "18°C", "clouds", "u"⟩,
          ToolOutput.logistics samplePlanAlt]).logisticsPlanRecommendation
      = ((([ToolOutput.logistics samplePlan,
            ToolOutput.weather ⟨"cloudy", "18°C", "clouds", "u"⟩,
            ToolOutput.logistics samplePlanAlt]).filterMap
            ToolOutput.logisticsPlan?).getLast?).map stringifyTravelPlan :=
  logistics_recommendation_stringified_last
    [ToolOutput.logistics samplePlan,
      ToolOutput.weather ⟨"cloudy", "18°C", "clouds", "u"⟩,
      ToolOutput.logistics samplePlanAlt]

end TravelAgent
